import Mathlib

/-!
Shallow embedding of `scripts/ci_setup.py` (dotnet performance repository):
a CI bootstrap script that validates arguments, installs a toolchain,
resolves version metadata and emits a machine-setup script of environment
variable assignments.

External collaborators (`dotnet`, `micro_benchmarks`, `performance.common`)
are modelled as an oracle record `Env`; the observable behaviour of
`__main` is a list of side effects (toolchain install, file writes,
toolchain removal) or a configuration error raised before any effect.
-/

namespace CiSetup

/-- Line 20 of the script: `global_extension` is `.cmd` when
`sys.platform` equals `win32` and `.sh` otherwise. -/
def globalExtension (win32 : Bool) : String :=
  if win32 then ".cmd" else ".sh"

/-- The parsed-arguments record produced by `__process_arguments`.
Optional string flags with no default are `Option String`; flags with a
default are plain `String`.  `architecture`, `dotnet_versions`,
`frameworks` and `cli` are contributed by the collaborator argument
groups (`dotnet.add_arguments`, `micro_benchmarks.add_arguments`). -/
structure Args where
  branch : Option String
  commit_sha : Option String
  repository : Option String
  queue : String
  build_number : String
  locale : String
  perf_hash : String
  get_perf_hash : Bool
  output_file : String
  quiet : Bool
  build_configs : List String
  architecture : String
  dotnet_versions : List String
  frameworks : List String
  cli : String

/-- Oracle for the external collaborators and the ambient platform.
`gitHeadLines` is the decoded line list of `git rev-parse HEAD` run in the
repository root; the remaining fields model
`micro_benchmarks.FrameworkAction` and the `dotnet` module queries. -/
structure Env where
  win32 : Bool
  gitHeadLines : List String
  getTargetFrameworkMonikers : List String → List String
  getTargetFrameworkMoniker : String → String
  getDotnetVersion : String → String → String
  getDotnetSdk : String → String → String
  getCommitDate : String → String → Option String → String
  getBranch : String → String
  getRepository : String → String × String

/-- Observable side effects of the run. -/
inductive Effect where
  | install (architecture : String)
  | writeFile (path : String) (content : String)
  | removeDotnet (architecture : String)
deriving DecidableEq, Repr

/-- Python `s.startswith(p)`: `p` is a prefix of `s` (checked on the
character lists). -/
def pyStartsWith (s p : String) : Bool :=
  p.data.isPrefixOf s.data

/-- Python `s.replace(old, new)` for one-character `old` and `new` (the
script only replaces a dash with a slash): every occurrence of the character
is replaced. -/
def replaceChar (s : String) (old new : Char) : String :=
  ⟨s.data.map (fun c => if c = old then new else c)⟩

/-- Line 194 of the script: `variable_format` is the template
`set %s=%s` plus newline on `win32` and `export %s=%s` plus newline
otherwise, applied to a name/value pair. -/
def variableFormat (win32 : Bool) (name value : String) : String :=
  if win32 then "set " ++ name ++ "=" ++ value ++ "\n"
  else "export " ++ name ++ "=" ++ value ++ "\n"

/-- Line 196 of the script: `config_string` is the semicolon-join of
`args.build_configs`, wrapped in double quotes unless on `win32`. -/
def configString (win32 : Bool) (build_configs : List String) : String :=
  if win32 then String.intercalate ";" build_configs
  else "\"" ++ String.intercalate ";" build_configs ++ "\""

/-- `perfHash = decoded_output if args.get_perf_hash else args.perf_hash`
(lines 200-212): the decoded output is the concatenation of the decoded
lines of `git rev-parse HEAD`. -/
def perfHashValue (env : Env) (args : Args) : String :=
  if args.get_perf_hash then String.join env.gitHeadLines else args.perf_hash

/-- `repo_url = None if args.repository is None else
args.repository` with dashes replaced by slashes` (line 192). -/
def repoUrl (args : Args) : Option String :=
  args.repository.map (fun r => replaceChar r (Char.ofNat 45) (Char.ofNat 47))

/-- Line 195 of the script: `owner, repo` is the pair `dotnet, core-sdk`
when `args.repository` is `None`, else `dotnet.get_repository(repo_url)`. -/
def ownerRepo (env : Env) (args : Args) : String × String :=
  match args.repository with
  | none => ("dotnet", "core-sdk")
  | some r => env.getRepository (replaceChar r (Char.ofNat 45) (Char.ofNat 47))

/-- The ordered name/value pairs written to the output file for one
framework moniker (the sequence of `out_file.write(variable_format % ...)`
calls, lines 227-245).  A moniker starting with `netcoreapp` takes the
full metadata branch; any other moniker takes the reduced branch. -/
def frameworkPairs (env : Env) (args : Args) (framework : String) :
    List (String × String) :=
  if pyStartsWith framework "netcoreapp" then
    let tfm := env.getTargetFrameworkMoniker framework
    let dotnet_version := env.getDotnetVersion tfm args.cli
    let commit_sha := match args.commit_sha with
      | none => env.getDotnetSdk tfm args.cli
      | some s => s
    let source_timestamp := env.getCommitDate tfm commit_sha (repoUrl args)
    let branch := match args.branch with
      | none => env.getBranch tfm
      | some b => if b.isEmpty then env.getBranch tfm else b
    [ ("PERFLAB_INLAB", "1"),
      ("PERFLAB_REPO", (ownerRepo env args).1 ++ "/" ++ (ownerRepo env args).2),
      ("PERFLAB_BRANCH", branch),
      ("PERFLAB_PERFHASH", perfHashValue env args),
      ("PERFLAB_HASH", commit_sha),
      ("PERFLAB_QUEUE", args.queue),
      ("PERFLAB_BUILDNUM", args.build_number),
      ("PERFLAB_BUILDARCH", args.architecture),
      ("PERFLAB_LOCALE", args.locale),
      ("PERFLAB_BUILDTIMESTAMP", source_timestamp),
      ("PERFLAB_CONFIGS", configString env.win32 args.build_configs),
      ("DOTNET_VERSION", dotnet_version),
      ("PERFLAB_TARGET_FRAMEWORKS", framework) ]
  else
    [ ("PERFLAB_INLAB", "0"),
      ("PERFLAB_TARGET_FRAMEWORKS", framework) ]

/-- The full text written to `args.output_file` for one framework
moniker: each pair is written with `variable_format`. -/
def frameworkContent (env : Env) (args : Args) (framework : String) : String :=
  String.join ((frameworkPairs env args framework).map
    (fun p => variableFormat env.win32 p.1 p.2))

/-- Line 178 of the script: `architecture` is `x64` when
`args.architecture` is `arm64`, else unchanged — the architecture used for
toolchain install and removal. -/
def installArchitecture (architecture : String) : String :=
  if architecture = "arm64" then "x64" else architecture

/-- Whether processing this moniker sets `remove_dotnet = True`
(lines 215-217: inside the `netcoreapp` branch, for `netcoreapp3.0` and
`netcoreapp5.0`). -/
def marksRemove (framework : String) : Bool :=
  pyStartsWith framework "netcoreapp" &&
    (framework == "netcoreapp3.0" || framework == "netcoreapp5.0")

/-- Result of a run: the side effects performed, and the error message of
a raised `ValueError` if any. -/
structure RunResult where
  effects : List Effect
  error : Option String
deriving DecidableEq, Repr

/-- Shallow embedding of `__main` after argument parsing: the joint
presence check on `commit_sha`/`repository` raises before any tool
install or file write (lines 165-168); otherwise the run installs the
toolchain, writes the output file once per target framework moniker in
truncating mode, and on non-Windows platforms removes the toolchain when
a legacy moniker was processed (lines 170-250). -/
def ciSetupMain (env : Env) (args : Args) : RunResult :=
  if args.commit_sha.isNone ≠ args.repository.isNone then
    { effects := [],
      error := some "Either both commit_sha and repository should be set or neither" }
  else
    let monikers := env.getTargetFrameworkMonikers args.frameworks
    let architecture := installArchitecture args.architecture
    let writes := monikers.map
      (fun fw => Effect.writeFile args.output_file (frameworkContent env args fw))
    let remove_dotnet := monikers.any marksRemove
    let cleanup :=
      if !env.win32 && remove_dotnet then [Effect.removeDotnet architecture] else []
    { effects := Effect.install architecture :: writes ++ cleanup,
      error := none }

/-- Content of the file after the run: each write-mode `open` truncates,
so the last write wins. -/
def lastWriteContent : List Effect → Option String
  | [] => none
  | Effect.writeFile _ c :: rest => some ((lastWriteContent rest).getD c)
  | Effect.install _ :: rest => lastWriteContent rest
  | Effect.removeDotnet _ :: rest => lastWriteContent rest

/-- Whether an effect is a file write. -/
def isWrite : Effect → Bool
  | Effect.writeFile _ _ => true
  | _ => false

/-- Modelled from the spec: `os.path.join` from the Python standard
library is not part of this repository; the spec says only that the
default output path is a machine-setup script path under the tools
directory, so the separator is a parameter. -/
def osPathJoin (sep dir name : String) : String := dir ++ sep ++ name

/-- Modelled from the spec: `get_tools_directory` lives in
`performance.common`, outside the repository slice; the tools directory is
a parameter.  The default for `--output-file` is
`os.path.join` of `get_tools_directory()` and `machine-setup` plus `global_extension`
(line 123). -/
def defaultOutputFile (win32 : Bool) (sep toolsDir : String) : String :=
  osPathJoin sep toolsDir ("machine-setup" ++ globalExtension win32)

/-- The command-line surface of the flags declared directly in
`add_arguments` that carry defaults: `none` (or `false` for the
`store_true` flag) means the flag was omitted. -/
structure CliInput where
  queue : Option String
  build_number : Option String
  locale : Option String
  perf_hash : Option String
  get_perf_hash_given : Bool
  build_configs : Option (List String)
  output_file : Option String

/-- The corresponding fields after `argparse` resolution. -/
structure ResolvedCli where
  queue : String
  build_number : String
  locale : String
  perf_hash : String
  get_perf_hash : Bool
  build_configs : List String
  output_file : String
deriving DecidableEq, Repr

/-- `argparse` default resolution for the flags declared in
`add_arguments` (lines 76-144): a supplied value is kept, an omitted flag
takes the declared default. -/
def resolveCli (win32 : Bool) (sep toolsDir : String) (c : CliInput) :
    ResolvedCli :=
  { queue := c.queue.getD "testQueue",
    build_number := c.build_number.getD "1234.1",
    locale := c.locale.getD "en-US",
    perf_hash := c.perf_hash.getD "testSha",
    get_perf_hash := c.get_perf_hash_given,
    build_configs := c.build_configs.getD [],
    output_file := c.output_file.getD (defaultOutputFile win32 sep toolsDir) }

/-- A command line on which every defaulted flag is omitted. -/
def omittedCli : CliInput :=
  { queue := none, build_number := none, locale := none, perf_hash := none,
    get_perf_hash_given := false, build_configs := none, output_file := none }

/-- A concrete oracle used by witnesses. -/
def sampleEnv : Env :=
  { win32 := false,
    gitHeadLines := ["abc123"],
    getTargetFrameworkMonikers := fun fs => fs,
    getTargetFrameworkMoniker := fun f => f,
    getDotnetVersion := fun _ _ => "3.0.100",
    getDotnetSdk := fun _ _ => "sdkSha",
    getCommitDate := fun _ _ _ => "2020-01-01T00:00:00Z",
    getBranch := fun _ => "master",
    getRepository := fun _ => ("dotnet", "core/sdk") }

/-- Concrete arguments used by witnesses: both `commit_sha` and
`repository` supplied, two build configs, one core moniker. -/
def sampleArgs : Args :=
  { branch := some "release",
    commit_sha := some "deadbeef",
    repository := some "https://github.com/dotnet-coreclr",
    queue := "testQueue",
    build_number := "1234.1",
    locale := "en-US",
    perf_hash := "testSha",
    get_perf_hash := false,
    output_file := "machine-setup.sh",
    quiet := false,
    build_configs := ["a=1", "b=2"],
    architecture := "x64",
    dotnet_versions := [],
    frameworks := ["netcoreapp3.0"],
    cli := "" }

/-- Variant oracle: Windows platform. -/
def sampleEnvWin : Env :=
  { sampleEnv with win32 := true }

/-- Arguments with `commit_sha` set but `repository` unset. -/
def mismatchedArgs : Args :=
  { sampleArgs with repository := none }

/-- Arguments requesting the `arm64` architecture. -/
def arm64Args : Args :=
  { sampleArgs with architecture := "arm64" }

/-- Arguments with two target frameworks, the second one non-core. -/
def twoFrameworkArgs : Args :=
  { sampleArgs with frameworks := ["netcoreapp3.0", "net461"] }

/-- Helper: `marksRemove` holds exactly on the two legacy monikers. -/
lemma marksRemove_iff (a : String) :
    marksRemove a = true ↔ a = "netcoreapp3.0" ∨ a = "netcoreapp5.0" := by
  constructor
  · intro h
    rcases Bool.and_eq_true_iff.1 h with ⟨-, h2⟩
    rcases Bool.or_eq_true_iff.1 h2 with h3 | h3
    · exact Or.inl (eq_of_beq h3)
    · exact Or.inr (eq_of_beq h3)
  · rintro (rfl | rfl) <;> decide

/-- Helper: some processed moniker sets `remove_dotnet` exactly when a
legacy moniker is in the list. -/
lemma any_marksRemove_iff (l : List String) :
    l.any marksRemove = true ↔ "netcoreapp3.0" ∈ l ∨ "netcoreapp5.0" ∈ l := by
  rw [List.any_eq_true]
  constructor
  · rintro ⟨x, hx, hf⟩
    rcases (marksRemove_iff x).1 hf with rfl | rfl
    · exact Or.inl hx
    · exact Or.inr hx
  · rintro (h | h)
    · exact ⟨_, h, by decide⟩
    · exact ⟨_, h, by decide⟩

/-- Helper: on the success path the run result is the explicit effect
list — install, one write per moniker, optional cleanup. -/
lemma ciSetupMain_ok (env : Env) (args : Args)
    (hok : args.commit_sha.isNone = args.repository.isNone) :
    ciSetupMain env args =
      { effects :=
          Effect.install (installArchitecture args.architecture) ::
            (env.getTargetFrameworkMonikers args.frameworks).map
              (fun fw => Effect.writeFile args.output_file
                (frameworkContent env args fw)) ++
            (if !env.win32 &&
                (env.getTargetFrameworkMonikers args.frameworks).any marksRemove
             then [Effect.removeDotnet (installArchitecture args.architecture)]
             else []),
        error := none } := by
  unfold ciSetupMain
  rw [if_neg (by simp [hok])]

/-- Claim C1: argument resolution fails with a configuration error exactly
when one of `commit_sha` and `repository` is set without the other; a
failing run performs no install or emission side effect, and a succeeding
run proceeds (its first effect is the toolchain install). -/
theorem commit_repo_joint_presence (env : Env) (args : Args) :
    ((ciSetupMain env args).error.isSome ↔
        args.commit_sha.isNone ≠ args.repository.isNone) ∧
    ((ciSetupMain env args).error.isSome → (ciSetupMain env args).effects = []) ∧
    ((ciSetupMain env args).error = none →
      ∃ rest, (ciSetupMain env args).effects =
        Effect.install (installArchitecture args.architecture) :: rest) := by
  unfold ciSetupMain
  by_cases h : args.commit_sha.isNone ≠ args.repository.isNone
  · simp [h]
  · simp [h]

/-- Witness for C1 at a concrete mismatched input. -/
theorem commit_repo_joint_presence_witness :
    (ciSetupMain sampleEnv mismatchedArgs).error.isSome = true ∧
    (ciSetupMain sampleEnv mismatchedArgs).effects = [] := by
  have h := commit_repo_joint_presence sampleEnv mismatchedArgs
  have herr : (ciSetupMain sampleEnv mismatchedArgs).error.isSome = true :=
    h.1.mpr (by decide)
  exact ⟨herr, h.2.1 herr⟩

/-- Counterexample to C2 as stated: on the Windows-syntax path the emitted
configs value is unquoted, and on the POSIX path it is quoted — the
opposite of the claim. -/
theorem configs_quoting_counterexample :
    List.lookup "PERFLAB_CONFIGS"
        (frameworkPairs sampleEnvWin sampleArgs "netcoreapp3.0")
      = some "a=1;b=2" ∧
    List.lookup "PERFLAB_CONFIGS"
        (frameworkPairs sampleEnv sampleArgs "netcoreapp3.0")
      = some "\"a=1;b=2\"" ∧
    List.lookup "PERFLAB_CONFIGS"
        (frameworkPairs sampleEnvWin sampleArgs "netcoreapp3.0")
      ≠ some "\"a=1;b=2\"" ∧
    List.lookup "PERFLAB_CONFIGS"
        (frameworkPairs sampleEnv sampleArgs "netcoreapp3.0")
      ≠ some "a=1;b=2" := by
  decide

/-- Claim C2 (amended): the emitted configs variable holds the
semicolon-joined build configs, unquoted on the Windows-syntax path and
quoted otherwise. -/
theorem configs_value_semicolon_joined (env : Env) (args : Args)
    (fw : String) (h : pyStartsWith fw "netcoreapp" = true) :
    List.lookup "PERFLAB_CONFIGS" (frameworkPairs env args fw) =
      some (if env.win32 then String.intercalate ";" args.build_configs
            else "\"" ++ String.intercalate ";" args.build_configs ++ "\"") ∧
    String.intercalate ";" ["a=1", "b=2"] = "a=1;b=2" := by
  refine ⟨?_, rfl⟩
  simp only [frameworkPairs, h, if_true, configString]
  rfl

/-- Witness for C2 (amended) at a concrete input. -/
theorem configs_value_semicolon_joined_witness :
    List.lookup "PERFLAB_CONFIGS"
        (frameworkPairs sampleEnv sampleArgs "netcoreapp3.0")
      = some "\"a=1;b=2\"" :=
  (configs_value_semicolon_joined sampleEnv sampleArgs "netcoreapp3.0"
    (by decide)).1

/-- Claim C3: with an explicit `commit_sha` and a core moniker, the
emitted hash variable is the supplied sha verbatim, and the emission does
not depend on the installed-SDK query oracle (no external query). -/
theorem hash_verbatim (env : Env) (args : Args) (fw sha : String)
    (g : String → String → String)
    (hfw : pyStartsWith fw "netcoreapp" = true)
    (hsha : args.commit_sha = some sha) :
    List.lookup "PERFLAB_HASH" (frameworkPairs env args fw) = some sha ∧
    frameworkPairs { env with getDotnetSdk := g } args fw =
      frameworkPairs env args fw := by
  constructor
  · simp only [frameworkPairs, hfw, if_true, hsha]
    rfl
  · simp only [frameworkPairs, hfw, if_true, hsha, ownerRepo, perfHashValue,
      repoUrl, configString]

/-- Witness for C3 at a concrete input with a visibly different oracle. -/
theorem hash_verbatim_witness :
    List.lookup "PERFLAB_HASH"
        (frameworkPairs sampleEnv sampleArgs "netcoreapp3.0")
      = some "deadbeef" ∧
    frameworkPairs { sampleEnv with getDotnetSdk := fun _ _ => "other" }
        sampleArgs "netcoreapp3.0" =
      frameworkPairs sampleEnv sampleArgs "netcoreapp3.0" :=
  hash_verbatim sampleEnv sampleArgs "netcoreapp3.0" "deadbeef"
    (fun _ _ => "other") (by decide) (by decide)

/-- Claim C4: a non-core moniker emits exactly the lab-marker and
target-frameworks assignments and no version, branch or hash variable. -/
theorem noncore_reduced_emission (env : Env) (args : Args) (fw : String)
    (h : pyStartsWith fw "netcoreapp" = false) :
    frameworkPairs env args fw =
      [("PERFLAB_INLAB", "0"), ("PERFLAB_TARGET_FRAMEWORKS", fw)] ∧
    frameworkContent env args fw =
      String.join [variableFormat env.win32 "PERFLAB_INLAB" "0",
        variableFormat env.win32 "PERFLAB_TARGET_FRAMEWORKS" fw] ∧
    List.lookup "DOTNET_VERSION" (frameworkPairs env args fw) = none ∧
    List.lookup "PERFLAB_BRANCH" (frameworkPairs env args fw) = none ∧
    List.lookup "PERFLAB_HASH" (frameworkPairs env args fw) = none := by
  have hp : frameworkPairs env args fw =
      [("PERFLAB_INLAB", "0"), ("PERFLAB_TARGET_FRAMEWORKS", fw)] := by
    simp only [frameworkPairs, h, if_false, Bool.false_eq_true]
  refine ⟨hp, ?_, ?_, ?_, ?_⟩
  · simp only [frameworkContent, hp]
    rfl
  all_goals rw [hp]
  all_goals rfl

/-- Witness for C4 at a concrete non-core moniker. -/
theorem noncore_reduced_emission_witness :
    frameworkPairs sampleEnv sampleArgs "net461" =
      [("PERFLAB_INLAB", "0"), ("PERFLAB_TARGET_FRAMEWORKS", "net461")] ∧
    List.lookup "PERFLAB_HASH" (frameworkPairs sampleEnv sampleArgs "net461")
      = none := by
  have h := noncore_reduced_emission sampleEnv sampleArgs "net461" (by decide)
  exact ⟨h.1, h.2.2.2.2⟩

/-- Claim C5: the emitted perf-hash variable is the joined decoded output
of `git rev-parse HEAD` when `--get-perf-hash` is set and the `--perf-hash`
argument otherwise, and that argument defaults to `testSha`. -/
theorem perfhash_source (env : Env) (args : Args) (fw : String)
    (h : pyStartsWith fw "netcoreapp" = true) :
    List.lookup "PERFLAB_PERFHASH" (frameworkPairs env args fw) =
      some (if args.get_perf_hash then String.join env.gitHeadLines
            else args.perf_hash) ∧
    (∀ w s t, (resolveCli w s t omittedCli).perf_hash = "testSha") := by
  refine ⟨?_, fun w s t => rfl⟩
  simp only [frameworkPairs, h, if_true, perfHashValue]
  rfl

/-- Witness for C5 at concrete inputs, on both sides of the flag. -/
theorem perfhash_source_witness :
    List.lookup "PERFLAB_PERFHASH"
        (frameworkPairs sampleEnv sampleArgs "netcoreapp3.0")
      = some "testSha" ∧
    List.lookup "PERFLAB_PERFHASH"
        (frameworkPairs sampleEnv { sampleArgs with get_perf_hash := true }
          "netcoreapp3.0")
      = some "abc123" := by
  have h1 := perfhash_source sampleEnv sampleArgs "netcoreapp3.0" (by decide)
  have h2 := perfhash_source sampleEnv { sampleArgs with get_perf_hash := true }
    "netcoreapp3.0" (by decide)
  exact ⟨h1.1, h2.1⟩

/-- Claim C6: the toolchain-removal effect occurs exactly when the
platform is non-Windows and the processed moniker list contains
`netcoreapp3.0` or `netcoreapp5.0`. -/
theorem legacy_cleanup (env : Env) (args : Args)
    (hok : args.commit_sha.isNone = args.repository.isNone) :
    Effect.removeDotnet (installArchitecture args.architecture) ∈
        (ciSetupMain env args).effects ↔
      env.win32 = false ∧
        ("netcoreapp3.0" ∈ env.getTargetFrameworkMonikers args.frameworks ∨
         "netcoreapp5.0" ∈ env.getTargetFrameworkMonikers args.frameworks) := by
  rw [ciSetupMain_ok env args hok]
  simp only [List.mem_cons, List.mem_append, List.mem_map]
  constructor
  · rintro ((h | ⟨fw, -, h⟩) | h)
    · exact absurd h (by simp)
    · exact absurd h (by simp)
    · by_cases hw : env.win32
      · rw [if_neg (by simp [hw])] at h
        simp at h
      · by_cases ha :
          (env.getTargetFrameworkMonikers args.frameworks).any marksRemove
        · exact ⟨by simp [hw], (any_marksRemove_iff _).1 ha⟩
        · rw [if_neg (by simp [ha])] at h
          simp at h
  · rintro ⟨hw, hmem⟩
    refine Or.inr ?_
    rw [if_pos (by simp [hw, (any_marksRemove_iff _).2 hmem])]
    simp

/-- Witness for C6: a non-Windows run over `netcoreapp3.0` removes the
toolchain. -/
theorem legacy_cleanup_witness :
    Effect.removeDotnet "x64" ∈ (ciSetupMain sampleEnv sampleArgs).effects := by
  have h := legacy_cleanup sampleEnv sampleArgs (by decide)
  exact h.mpr (by constructor <;> decide)

/-- Claim C7: every file write of a run targets the output file and its
content is the concatenation, one formatted pair after the other, of the
framework pair list rendered with `variable_format`, whose two shapes are
the Windows `set` assignment and the POSIX `export` assignment, each
terminated by a newline. -/
theorem emission_format (env : Env) (args : Args) (name value : String) :
    (∀ path c, Effect.writeFile path c ∈ (ciSetupMain env args).effects →
      path = args.output_file ∧
      ∃ fw, fw ∈ env.getTargetFrameworkMonikers args.frameworks ∧
        c = String.join ((frameworkPairs env args fw).map
              (fun p => variableFormat env.win32 p.1 p.2))) ∧
    variableFormat true name value = "set " ++ name ++ "=" ++ value ++ "\n" ∧
    variableFormat false name value =
      "export " ++ name ++ "=" ++ value ++ "\n" := by
  refine ⟨?_, rfl, rfl⟩
  intro path c hmem
  by_cases hok : args.commit_sha.isNone = args.repository.isNone
  · rw [ciSetupMain_ok env args hok] at hmem
    simp only [List.mem_cons, List.mem_append, List.mem_map] at hmem
    rcases hmem with (h | ⟨fw, hfw, h⟩) | h
    · exact absurd h (by simp)
    · injection h.symm with h1 h2
      exact ⟨h1, fw, hfw, by rw [h2]; rfl⟩
    · by_cases hc : (!env.win32 &&
          (env.getTargetFrameworkMonikers args.frameworks).any marksRemove) = true
      · rw [if_pos hc] at h
        simp at h
      · rw [if_neg hc] at h
        simp at h
  · unfold ciSetupMain at hmem
    rw [if_pos hok] at hmem
    simp at hmem

/-- Witness for C7: the single write of a concrete run is the formatted
pair list for its moniker. -/
theorem emission_format_witness :
    "machine-setup.sh" = sampleArgs.output_file ∧
    ∃ fw, fw ∈ sampleEnv.getTargetFrameworkMonikers sampleArgs.frameworks ∧
      frameworkContent sampleEnv sampleArgs "netcoreapp3.0" =
        String.join ((frameworkPairs sampleEnv sampleArgs fw).map
          (fun p => variableFormat sampleEnv.win32 p.1 p.2)) := by
  have h := emission_format sampleEnv sampleArgs "A" "B"
  refine h.1 "machine-setup.sh"
    (frameworkContent sampleEnv sampleArgs "netcoreapp3.0") ?_
  rw [ciSetupMain_ok sampleEnv sampleArgs (by decide)]
  exact List.mem_append_left _
    (List.mem_cons_of_mem _ (List.mem_singleton.mpr rfl))

/-- Claim C8: omitting each defaulted flag yields queue `testQueue`, build
number `1234.1`, locale `en-US`, perf hash `testSha`, get-perf-hash off,
an empty build-config list, and a machine-setup script path under the
tools directory with the platform extension. -/
theorem cli_defaults (win32 : Bool) (sep toolsDir : String) :
    resolveCli win32 sep toolsDir omittedCli =
      { queue := "testQueue", build_number := "1234.1", locale := "en-US",
        perf_hash := "testSha", get_perf_hash := false, build_configs := [],
        output_file :=
          toolsDir ++ sep ++ ("machine-setup" ++ globalExtension win32) } :=
  rfl

/-- Helper: appending effects with no file write does not change the last
written content. -/
lemma lastWriteContent_append_nowrite (l1 l2 : List Effect)
    (h : lastWriteContent l2 = none) :
    lastWriteContent (l1 ++ l2) = lastWriteContent l1 := by
  induction l1 with
  | nil => simpa using h
  | cons e t ih =>
    cases e with
    | install a => simpa [lastWriteContent] using ih
    | removeDotnet a => simpa [lastWriteContent] using ih
    | writeFile p c => simp [lastWriteContent, ih]

/-- Helper: the last content among a list of per-moniker writes is the
content of the last moniker. -/
lemma lastWriteContent_map_writes (path : String) (content : String → String)
    (l : List String) :
    lastWriteContent (l.map (fun fw => Effect.writeFile path (content fw))) =
      l.getLast?.map content := by
  induction l with
  | nil => rfl
  | cons a t ih =>
    cases t with
    | nil => rfl
    | cons b t2 =>
      show some ((lastWriteContent
        (((b :: t2)).map (fun fw => Effect.writeFile path (content fw)))).getD
          (content a)) = _
      rw [ih]
      have hs : ((b :: t2).getLast?).isSome := by
        simp [List.getLast?_isSome]
      obtain ⟨x, hx⟩ := Option.isSome_iff_exists.1 hs
      rw [List.getLast?_cons_cons, hx]
      rfl

/-- Claim C9: a requested `arm64` architecture is installed (and removed,
when cleanup triggers) as `x64`, while the emitted build-arch variable
keeps the requested value; any other architecture is used unchanged. -/
theorem arm64_architecture (env : Env) (args : Args) (fw : String)
    (hok : args.commit_sha.isNone = args.repository.isNone)
    (hfw : pyStartsWith fw "netcoreapp" = true) :
    Effect.install (installArchitecture args.architecture) ∈
      (ciSetupMain env args).effects ∧
    (∀ a, Effect.removeDotnet a ∈ (ciSetupMain env args).effects →
      a = installArchitecture args.architecture) ∧
    installArchitecture "arm64" = "x64" ∧
    (args.architecture ≠ "arm64" →
      installArchitecture args.architecture = args.architecture) ∧
    List.lookup "PERFLAB_BUILDARCH" (frameworkPairs env args fw) =
      some args.architecture := by
  refine ⟨?_, ?_, rfl, ?_, ?_⟩
  · rw [ciSetupMain_ok env args hok]
    exact List.mem_append_left _ (List.mem_cons_self _ _)
  · intro a ha
    rw [ciSetupMain_ok env args hok] at ha
    simp only [List.mem_cons, List.mem_append, List.mem_map] at ha
    rcases ha with (h | ⟨fw2, -, h⟩) | h
    · exact absurd h (by simp)
    · exact absurd h (by simp)
    · by_cases hc : (!env.win32 &&
          (env.getTargetFrameworkMonikers args.frameworks).any marksRemove)
          = true
      · rw [if_pos hc] at h
        simpa using h
      · rw [if_neg hc] at h
        simp at h
  · intro hne
    exact if_neg hne
  · simp only [frameworkPairs, hfw, if_true]
    rfl

/-- Witness for C9 on a concrete `arm64` run. -/
theorem arm64_architecture_witness :
    Effect.install "x64" ∈ (ciSetupMain sampleEnv arm64Args).effects ∧
    List.lookup "PERFLAB_BUILDARCH"
        (frameworkPairs sampleEnv arm64Args "netcoreapp3.0")
      = some "arm64" := by
  have h := arm64_architecture sampleEnv arm64Args "netcoreapp3.0"
    (by decide) (by decide)
  exact ⟨h.1, h.2.2.2.2⟩

/-- Claim C10: one truncating write per framework moniker, so the final
file content is that of the last moniker in the list. -/
theorem last_moniker_wins (env : Env) (args : Args)
    (hok : args.commit_sha.isNone = args.repository.isNone)
    (hne : env.getTargetFrameworkMonikers args.frameworks ≠ []) :
    ((ciSetupMain env args).effects.filter isWrite).length =
      (env.getTargetFrameworkMonikers args.frameworks).length ∧
    lastWriteContent (ciSetupMain env args).effects =
      some (frameworkContent env args
        ((env.getTargetFrameworkMonikers args.frameworks).getLast hne)) := by
  rw [ciSetupMain_ok env args hok]
  have hclean : lastWriteContent
      (if (!env.win32 &&
          (env.getTargetFrameworkMonikers args.frameworks).any marksRemove)
          = true
       then [Effect.removeDotnet (installArchitecture args.architecture)]
       else []) = none := by
    by_cases hc : (!env.win32 &&
        (env.getTargetFrameworkMonikers args.frameworks).any marksRemove)
        = true
    · rw [if_pos hc]
      rfl
    · rw [if_neg hc]
      rfl
  have hw : ((env.getTargetFrameworkMonikers args.frameworks).map
      (fun fw => Effect.writeFile args.output_file
        (frameworkContent env args fw))).filter isWrite =
      (env.getTargetFrameworkMonikers args.frameworks).map
        (fun fw => Effect.writeFile args.output_file
          (frameworkContent env args fw)) := by
    rw [List.filter_eq_self]
    intro e he
    rcases List.mem_map.1 he with ⟨fw, -, rfl⟩
    rfl
  have hcf : ((if (!env.win32 &&
      (env.getTargetFrameworkMonikers args.frameworks).any marksRemove)
      = true
     then [Effect.removeDotnet (installArchitecture args.architecture)]
     else []).filter isWrite) = [] := by
    by_cases hc : (!env.win32 &&
        (env.getTargetFrameworkMonikers args.frameworks).any marksRemove)
        = true
    · rw [if_pos hc]
      rfl
    · rw [if_neg hc]
      rfl
  constructor
  · rw [List.filter_append,
      show (Effect.install (installArchitecture args.architecture) ::
        (env.getTargetFrameworkMonikers args.frameworks).map
          (fun fw => Effect.writeFile args.output_file
            (frameworkContent env args fw))).filter isWrite =
        ((env.getTargetFrameworkMonikers args.frameworks).map
          (fun fw => Effect.writeFile args.output_file
            (frameworkContent env args fw))).filter isWrite from rfl,
      hw, hcf]
    simp
  · rw [lastWriteContent_append_nowrite _ _ hclean]
    show lastWriteContent
      ((env.getTargetFrameworkMonikers args.frameworks).map
        (fun fw => Effect.writeFile args.output_file
          (frameworkContent env args fw))) = _
    rw [lastWriteContent_map_writes, List.getLast?_eq_getLast _ hne]
    rfl

/-- Witness for C10: with monikers `netcoreapp3.0` then `net461`, the run
writes twice and the final content is the reduced `net461` emission. -/
theorem last_moniker_wins_witness :
    ((ciSetupMain sampleEnv twoFrameworkArgs).effects.filter isWrite).length
      = 2 ∧
    lastWriteContent (ciSetupMain sampleEnv twoFrameworkArgs).effects =
      some (frameworkContent sampleEnv twoFrameworkArgs "net461") := by
  have h := last_moniker_wins sampleEnv twoFrameworkArgs (by decide) (by decide)
  exact ⟨h.1, h.2⟩

end CiSetup
